import Mathlib

/-!
Shallow embedding of `react-mutex` (src/src/mutex.ts, src/src/error.ts).

The library exposes a guard (`Mutex<T>`) protecting a mutable value.  The
guard's hidden state is `MutexInternal<T> = { value: T, [borrow]: symbol | null }`.
`acquire` mints a fresh JavaScript symbol as a borrow token, stores it in the
`borrow` slot and returns a resource view (access handle) closed over that
token; the handle's `isReleased` compares its token with the guard's current
borrow slot, and `release`/`get`/`set` first check `isReleased` and throw
`MutexAccessRevokedError` when it holds.

JavaScript symbols are globally unique and never compare equal to any other
symbol.  We model the symbols minted by one guard by natural numbers handed
out by a monotone counter `nextToken` carried in the state: the token minted
by an `acquire` is the current counter value, which is then incremented, so a
freshly minted token differs from every token minted before.  Throwing is
modelled with `Except`: every operation returns its `Except` result together
with the post-state, and on the throwing path the post-state is the pre-state
(the TypeScript code throws before performing any mutation).
-/

namespace ReactMutex

/-- The two error classes of src/src/error.ts. -/
inductive MutexError where
  /-- `MutexLockedError`: acquire while already in use. -/
  | mutexLockedError : MutexError
  /-- `MutexAccessRevokedError`: a resource view used after its release. -/
  | mutexAccessRevokedError : MutexError
deriving DecidableEq, Repr

/-- `MutexInternal<T>` together with the fresh-symbol supply.
`value` is the protected payload, `borrow` the current borrow token
(`null` modelled as `none`), and `nextToken` the supply of fresh tokens
modelling `Symbol('mutex:borrow')` allocation. -/
structure MutexInternal (T : Type) where
  value : T
  borrow : Option Nat
  nextToken : Nat
deriving Repr, DecidableEq

/-- The state installed by `useMutex` on first mount:
`{ [borrow]: null, value: initialValue }` (src/src/mutex.ts, useMutex). -/
def initMutex {T : Type} (initialValue : T) : MutexInternal T :=
  { value := initialValue, borrow := none, nextToken := 0 }

/-- `isAvailable: () => mutexRef.current![borrow] === null`. -/
def isAvailable {T : Type} (s : MutexInternal T) : Bool :=
  s.borrow = none

/-- The handle-side probe of createMutexResource:
`isReleased = () => token !== mutexRef.current[borrow]`. -/
def isReleased {T : Type} (s : MutexInternal T) (token : Nat) : Bool :=
  s.borrow ≠ some token

/-- `acquire` (src/src/mutex.ts lines 153-164): if the borrow slot is not
null, throw `MutexLockedError`; otherwise mint a fresh token via
`createMutexResource`, register it in the borrow slot, and return the
resource view (represented by its token). -/
def acquire {T : Type} (s : MutexInternal T) :
    Except MutexError Nat × MutexInternal T :=
  match s.borrow with
  | some _ => (.error .mutexLockedError, s)
  | none =>
      let token := s.nextToken
      (.ok token,
        { value := s.value, borrow := some token, nextToken := s.nextToken + 1 })

/-- `release` of a resource view holding `token`: throw
`MutexAccessRevokedError` when the view is released, otherwise set the
borrow slot to null. -/
def release {T : Type} (s : MutexInternal T) (token : Nat) :
    Except MutexError Unit × MutexInternal T :=
  if isReleased s token then (.error .mutexAccessRevokedError, s)
  else (.ok (), { s with borrow := none })

/-- `get` of a resource view holding `token`: throw
`MutexAccessRevokedError` when the view is released, otherwise return the
guard's current value. -/
def get {T : Type} (s : MutexInternal T) (token : Nat) :
    Except MutexError T × MutexInternal T :=
  if isReleased s token then (.error .mutexAccessRevokedError, s)
  else (.ok s.value, s)

/-- `set` of a resource view holding `token`: throw
`MutexAccessRevokedError` when the view is released, otherwise overwrite the
guard's value. -/
def set {T : Type} (s : MutexInternal T) (token : Nat) (v : T) :
    Except MutexError Unit × MutexInternal T :=
  if isReleased s token then (.error .mutexAccessRevokedError, s)
  else (.ok (), { s with value := v })

/-- One client-visible operation on the guard: acquiring, or invoking
`release`/`get`/`set` on the handle that carries a given token. -/
inductive Op (T : Type) where
  | acquire : Op T
  | release : Nat → Op T
  | get : Nat → Op T
  | set : Nat → T → Op T

/-- The state transition of a single operation (the `Except` outcome is
discarded; on the throwing path the state is unchanged by construction). -/
def step {T : Type} (s : MutexInternal T) : Op T → MutexInternal T
  | .acquire => (acquire s).2
  | .release t => (release s t).2
  | .get t => (get s t).2
  | .set t v => (set s t v).2

/-- Run a sequence of operations from a state. -/
def run {T : Type} (s : MutexInternal T) (ops : List (Op T)) : MutexInternal T :=
  ops.foldl step s

/-- The tokens ever minted for this guard: `acquire` hands out
`0, 1, 2, ...` in order, so exactly the naturals below `nextToken`. -/
def minted {T : Type} (s : MutexInternal T) : Finset Nat :=
  Finset.range s.nextToken

/-! ### Helper lemmas -/

theorem isReleased_eq_false_iff {T : Type} (s : MutexInternal T) (tok : Nat) :
    isReleased s tok = false ↔ s.borrow = some tok := by
  simp [isReleased]

theorem isReleased_eq_true_iff {T : Type} (s : MutexInternal T) (tok : Nat) :
    isReleased s tok = true ↔ s.borrow ≠ some tok := by
  simp [isReleased]

/-- A revoked, previously minted token stays revoked across one step:
`acquire` mints a strictly larger token, and no operation ever writes an
old token back into the borrow slot. -/
theorem step_preserves_dead {T : Type} (s : MutexInternal T) (op : Op T)
    (tok : Nat) (h1 : tok < s.nextToken) (h2 : s.borrow ≠ some tok) :
    tok < (step s op).nextToken ∧ (step s op).borrow ≠ some tok := by
  cases op with
  | acquire =>
      cases hb : s.borrow with
      | none =>
          simp [step, acquire, hb]
          omega
      | some t =>
          have ht : ¬ t = tok := fun e => h2 (by rw [hb, e])
          simpa [step, acquire, hb] using ⟨h1, ht⟩
  | release t =>
      by_cases hr : isReleased s t = true
      · simpa [step, release, hr] using ⟨h1, h2⟩
      · simp at hr
        simp [step, release, hr, h1]
  | get t =>
      by_cases hr : isReleased s t = true <;>
        simpa [step, get, hr] using ⟨h1, h2⟩
  | set t v =>
      by_cases hr : isReleased s t = true <;>
        simpa [step, set, hr] using ⟨h1, h2⟩

/-- A revoked, previously minted token stays revoked under any sequence of
operations. -/
theorem run_preserves_dead {T : Type} (s : MutexInternal T) (tok : Nat)
    (ops : List (Op T)) (h1 : tok < s.nextToken) (h2 : s.borrow ≠ some tok) :
    tok < (run s ops).nextToken ∧ (run s ops).borrow ≠ some tok := by
  induction ops generalizing s with
  | nil => exact ⟨h1, h2⟩
  | cons op ops ih =>
      have := step_preserves_dead s op tok h1 h2
      exact ih (step s op) this.1 this.2

/-- Invariant: the token in the borrow slot, when present, was minted. -/
def holderMinted {T : Type} (s : MutexInternal T) : Prop :=
  ∀ t, s.borrow = some t → t < s.nextToken

theorem holderMinted_init {T : Type} (v : T) : holderMinted (initMutex v) := by
  intro t h
  cases h

theorem holderMinted_step {T : Type} (s : MutexInternal T) (op : Op T)
    (h : holderMinted s) : holderMinted (step s op) := by
  cases op with
  | acquire =>
      cases hb : s.borrow with
      | none =>
          intro t ht
          simp [step, acquire, hb] at ht ⊢
          omega
      | some u =>
          intro t ht
          simp [step, acquire, hb] at ht ⊢
          exact h t (by rw [hb, ht])
  | release t =>
      by_cases hr : isReleased s t = true
      · simpa [step, release, hr] using h
      · simp at hr
        intro u hu
        simp [step, release, hr] at hu
  | get t =>
      by_cases hr : isReleased s t = true <;>
        simpa [step, get, hr] using h
  | set t v =>
      by_cases hr : isReleased s t = true <;>
        simpa [step, set, hr] using h

theorem holderMinted_run {T : Type} (s : MutexInternal T) (ops : List (Op T))
    (h : holderMinted s) : holderMinted (run s ops) := by
  induction ops generalizing s with
  | nil => exact h
  | cons op ops ih => exact ih (step s op) (holderMinted_step s op h)

/-! ### Claim theorems -/

/-- C1: for every sequence of operations on a guard created by `useMutex`,
after every operation `isAvailable()` returns true iff no live access
handle exists (a handle is live iff its token equals the guard's current
holder): availability and liveness are each other's negation in every
reachable state. -/
theorem availability_iff_no_live_handle {T : Type} (v : T)
    (ops : List (Op T)) :
    isAvailable (run (initMutex v) ops) = true ↔
      ¬ ∃ t ∈ minted (run (initMutex v) ops),
          isReleased (run (initMutex v) ops) t = false := by
  have hinv := holderMinted_run (initMutex v) ops (holderMinted_init v)
  constructor
  · intro ha hl
    obtain ⟨t, _, hlive⟩ := hl
    rw [isReleased_eq_false_iff] at hlive
    simp [isAvailable] at ha
    rw [ha] at hlive
    cases hlive
  · intro hno
    simp [isAvailable]
    cases hb : (run (initMutex v) ops).borrow with
    | none => rfl
    | some t =>
        refine absurd ⟨t, ?_, (isReleased_eq_false_iff _ _).2 hb⟩ hno
        simpa [minted] using hinv t hb

/-- C2: whenever the holder is not `None`, `acquire()` raises
`MutexLockedError` and leaves the guard's value and holder unchanged:
the failure has no side effect. -/
theorem acquire_while_held {T : Type} (s : MutexInternal T) (t : Nat)
    (h : s.borrow = some t) :
    acquire s = (.error .mutexLockedError, s) := by
  simp [acquire, h]

theorem acquire_while_held_witness :
    acquire { value := (0 : Nat), borrow := some 0, nextToken := 1 } =
      (.error .mutexLockedError,
        { value := 0, borrow := some 0, nextToken := 1 }) :=
  acquire_while_held { value := (0 : Nat), borrow := some 0, nextToken := 1 }
    0 rfl

/-- C3: whenever the holder is `None`, `acquire()` succeeds: it mints a
token never minted before for this guard, installs it as the holder and
returns the handle bound to it; immediately afterwards `isAvailable()`
is false and the handle's `isReleased()` is false. -/
theorem acquire_while_free {T : Type} (s : MutexInternal T)
    (h : s.borrow = none) :
    ∃ tok s', acquire s = (.ok tok, s') ∧
      tok ∉ minted s ∧
      s'.borrow = some tok ∧
      isAvailable s' = false ∧
      isReleased s' tok = false ∧
      minted s' = insert tok (minted s) ∧
      s'.value = s.value := by
  refine ⟨s.nextToken,
    { value := s.value, borrow := some s.nextToken,
      nextToken := s.nextToken + 1 }, ?_, ?_, rfl, ?_, ?_, ?_, rfl⟩
  · simp [acquire, h]
  · simp [minted]
  · simp [isAvailable]
  · simp [isReleased]
  · simp [minted, Finset.range_succ]

theorem acquire_while_free_witness :
    ∃ tok s', acquire (initMutex (0 : Nat)) = (.ok tok, s') ∧
      tok ∉ minted (initMutex (0 : Nat)) ∧
      s'.borrow = some tok ∧
      isAvailable s' = false ∧
      isReleased s' tok = false ∧
      minted s' = insert tok (minted (initMutex (0 : Nat))) ∧
      s'.value = (initMutex (0 : Nat)).value :=
  acquire_while_free (initMutex (0 : Nat)) rfl

/-- C4: `release()` on a live handle succeeds and clears the holder, so
`isAvailable()` becomes true and the handle's `isReleased()` returns true
from then on; a second `release()` on the same handle raises
`MutexAccessRevokedError` and leaves the state unchanged. -/
theorem release_live_then_revoked {T : Type} (s : MutexInternal T)
    (tok : Nat) (hb : s.borrow = some tok) (hm : tok ∈ minted s) :
    ∃ s', release s tok = (.ok (), s') ∧
      isAvailable s' = true ∧
      isReleased s' tok = true ∧
      s'.value = s.value ∧
      (∀ ops, isReleased (run s' ops) tok = true) ∧
      release s' tok = (.error .mutexAccessRevokedError, s') := by
  refine ⟨{ s with borrow := none }, ?_, ?_, ?_, rfl, ?_, ?_⟩
  · simp [release, isReleased, hb]
  · simp [isAvailable]
  · simp [isReleased]
  · intro ops
    rw [isReleased_eq_true_iff]
    exact (run_preserves_dead { s with borrow := none } tok ops
      (by simpa [minted] using hm) (by simp)).2
  · simp [release, isReleased]

theorem release_live_then_revoked_witness :
    ∃ s', release (⟨0, some 0, 1⟩ : MutexInternal Nat) 0 = (.ok (), s') ∧
      isAvailable s' = true ∧
      isReleased s' 0 = true ∧
      s'.value = (⟨0, some 0, 1⟩ : MutexInternal Nat).value ∧
      (∀ ops, isReleased (run s' ops) 0 = true) ∧
      release s' 0 = (.error .mutexAccessRevokedError, s') :=
  release_live_then_revoked (⟨0, some 0, 1⟩ : MutexInternal Nat) 0 rfl
    (by decide)

/-- C5: revocation is irreversible: once a minted handle's `isReleased()`
returns true, it returns true after every subsequent sequence of
operations on the guard, because tokens are never reused. -/
theorem revocation_irreversible {T : Type} (s : MutexInternal T) (tok : Nat)
    (hm : tok ∈ minted s) (h : isReleased s tok = true)
    (ops : List (Op T)) :
    isReleased (run s ops) tok = true := by
  rw [isReleased_eq_true_iff] at h ⊢
  exact (run_preserves_dead s tok ops (by simpa [minted] using hm) h).2

theorem revocation_irreversible_witness :
    0 ∈ minted (⟨0, none, 1⟩ : MutexInternal Nat) ∧
    isReleased (⟨0, none, 1⟩ : MutexInternal Nat) 0 = true ∧
    isReleased (run (⟨0, none, 1⟩ : MutexInternal Nat)
      [Op.acquire, Op.set 1 7]) 0 = true :=
  ⟨by decide, by decide,
    revocation_irreversible (⟨0, none, 1⟩ : MutexInternal Nat) 0 (by decide)
      (by decide) [Op.acquire, Op.set 1 7]⟩

/-- C6: on a handle whose `isReleased()` is true, both `get()` and
`set(v)` raise `MutexAccessRevokedError` and leave the guard's state
unchanged: the error path never mutates. -/
theorem get_set_revoked_fail {T : Type} (s : MutexInternal T) (tok : Nat)
    (h : isReleased s tok = true) (v : T) :
    get s tok = (.error .mutexAccessRevokedError, s) ∧
    set s tok v = (.error .mutexAccessRevokedError, s) := by
  constructor <;> simp [get, set, h]

theorem get_set_revoked_fail_witness :
    get (⟨5, none, 1⟩ : MutexInternal Nat) 0 =
      (.error .mutexAccessRevokedError, ⟨5, none, 1⟩) ∧
    set (⟨5, none, 1⟩ : MutexInternal Nat) 0 9 =
      (.error .mutexAccessRevokedError, ⟨5, none, 1⟩) :=
  get_set_revoked_fail (⟨5, none, 1⟩ : MutexInternal Nat) 0 (by decide) 9

/-- C7: round-trip: on a live handle, `set(v)` succeeds and an immediate
`get()` on the same handle returns exactly `v`. -/
theorem set_get_roundtrip {T : Type} (s : MutexInternal T) (tok : Nat)
    (h : isReleased s tok = false) (v : T) :
    (set s tok v).1 = .ok () ∧ (get (set s tok v).2 tok).1 = .ok v := by
  rw [isReleased_eq_false_iff] at h
  constructor <;> simp [set, get, isReleased, h]

theorem set_get_roundtrip_witness :
    (set (⟨0, some 0, 1⟩ : MutexInternal Nat) 0 42).1 = .ok () ∧
    (get (set (⟨0, some 0, 1⟩ : MutexInternal Nat) 0 42).2 0).1 = .ok 42 :=
  set_get_roundtrip (⟨0, some 0, 1⟩ : MutexInternal Nat) 0 (by decide) 42

/-- C8: re-entrancy: from a fresh guard, acquire then release then acquire
all succeed, the second handle's token differs from the first, the second
handle's get/set/release succeed, and the first handle is permanently
revoked. -/
theorem reentrancy {T : Type} (v : T) :
    ∃ tok1 s1 s2 tok2 s3,
      acquire (initMutex v) = (.ok tok1, s1) ∧
      release s1 tok1 = (.ok (), s2) ∧
      acquire s2 = (.ok tok2, s3) ∧
      tok2 ≠ tok1 ∧
      isReleased s3 tok1 = true ∧
      isReleased s3 tok2 = false ∧
      (get s3 tok2).1 = .ok v ∧
      (∀ w, (set s3 tok2 w).1 = .ok ()) ∧
      (release s3 tok2).1 = .ok () ∧
      ∀ ops, isReleased (run s3 ops) tok1 = true := by
  refine ⟨0, ⟨v, some 0, 1⟩, ⟨v, none, 1⟩, 1, ⟨v, some 1, 2⟩,
    rfl, ?_, rfl, ?_, ?_, ?_, ?_, ?_, ?_, ?_⟩
  · simp [release, isReleased]
  · simp
  · simp [isReleased]
  · simp [isReleased]
  · simp [get, isReleased]
  · intro w
    simp [set, isReleased]
  · simp [release, isReleased]
  · intro ops
    rw [isReleased_eq_true_iff]
    exact (run_preserves_dead ⟨v, some 1, 2⟩ 0 ops (by simp) (by simp)).2

/-- C9: end-to-end scenario on a guard initialized with value 0:
the first acquire succeeds; `set(42)` succeeds; a second acquire raises
`MutexLockedError`; `get()` returns 42; `release()` succeeds; `get()`
then raises `MutexAccessRevokedError`; a further acquire succeeds and its
`get()` returns 42 (the written value persists across release and
re-acquisition). -/
theorem usage_scenario :
    acquire (initMutex (0 : Nat)) = (.ok 0, ⟨0, some 0, 1⟩) ∧
    set (⟨0, some 0, 1⟩ : MutexInternal Nat) 0 42 =
      (.ok (), ⟨42, some 0, 1⟩) ∧
    acquire (⟨42, some 0, 1⟩ : MutexInternal Nat) =
      (.error .mutexLockedError, ⟨42, some 0, 1⟩) ∧
    get (⟨42, some 0, 1⟩ : MutexInternal Nat) 0 = (.ok 42, ⟨42, some 0, 1⟩) ∧
    release (⟨42, some 0, 1⟩ : MutexInternal Nat) 0 =
      (.ok (), ⟨42, none, 1⟩) ∧
    get (⟨42, none, 1⟩ : MutexInternal Nat) 0 =
      (.error .mutexAccessRevokedError, ⟨42, none, 1⟩) ∧
    acquire (⟨42, none, 1⟩ : MutexInternal Nat) = (.ok 1, ⟨42, some 1, 2⟩) ∧
    get (⟨42, some 1, 2⟩ : MutexInternal Nat) 1 = (.ok 42, ⟨42, some 1, 2⟩) :=
  ⟨rfl, rfl, rfl, rfl, rfl, rfl, rfl, rfl⟩

/-- C10: frame property of `set`: on a live handle, `set(v)` changes only
the guard's value field and leaves holder and token supply unchanged;
the handle stays live, and subsequent `get`/`set`/`release` still
succeed. -/
theorem set_frame {T : Type} (s : MutexInternal T) (tok : Nat)
    (h : isReleased s tok = false) (v : T) :
    set s tok v = (.ok (), { s with value := v }) ∧
    isReleased { s with value := v } tok = false ∧
    (get { s with value := v } tok).1 = .ok v ∧
    (∀ w, (set { s with value := v } tok w).1 = .ok ()) ∧
    (release { s with value := v } tok).1 = .ok () := by
  rw [isReleased_eq_false_iff] at h
  refine ⟨?_, ?_, ?_, ?_, ?_⟩
  · simp [set, isReleased, h]
  · simp [isReleased, h]
  · simp [get, isReleased, h]
  · intro w
    simp [set, isReleased, h]
  · simp [release, isReleased, h]

theorem set_frame_witness :
    set (⟨0, some 0, 1⟩ : MutexInternal Nat) 0 8 = (.ok (), ⟨8, some 0, 1⟩) ∧
    isReleased (⟨8, some 0, 1⟩ : MutexInternal Nat) 0 = false ∧
    (get (⟨8, some 0, 1⟩ : MutexInternal Nat) 0).1 = .ok 8 ∧
    (∀ w, (set (⟨8, some 0, 1⟩ : MutexInternal Nat) 0 w).1 = .ok ()) ∧
    (release (⟨8, some 0, 1⟩ : MutexInternal Nat) 0).1 = .ok () :=
  set_frame (⟨0, some 0, 1⟩ : MutexInternal Nat) 0 (by decide) 8

end ReactMutex
